import Mathlib

/-!
Verification of the metadata-extraction script
src/echoutilities/extract_PANGAEA_metadata.py against its specification.

The script is shallowly embedded: machine floats become rationals,
NaN becomes the none case of Option, a Python exception becomes the
none case of an Option-valued function, and the external echopype
objects become plain structures holding exactly the fields the script
reads.  Where the script distinguishes Python ints from Python floats
(the navigation window computation at lines 112-113 does, because a
float slice index makes numpy raise), the embedding uses an explicit
PyNum type with the CPython semantics of true division, min and max.
-/

namespace EchoUtilities

/-- Round half to even at the given number of decimal places, as numpy
round and Python round do.  Ties cannot occur in any claim below, so
only the non-tie behaviour matters, but the tie rule is modelled
faithfully anyway. -/
def roundHalfEven (q : ℚ) : ℤ :=
  let f : ℤ := ⌊q⌋
  let frac : ℚ := q - f
  if frac < 1 / 2 then f
  else if 1 / 2 < frac then f + 1
  else if f % 2 = 0 then f else f + 1

/-- np.round(x, n) and round(x, n) on a rational model of the float. -/
def roundTo (n : ℕ) (q : ℚ) : ℚ :=
  (roundHalfEven (q * 10 ^ n) : ℚ) / 10 ^ n

/-- np.nanmax over a vector whose entries may be NaN (none).  The none
result stands for the all-NaN (or empty) case, where numpy produces no
finite value. -/
def nanmax (xs : List (Option ℚ)) : Option ℚ :=
  match xs.filterMap id with
  | [] => none
  | v :: vs => some (vs.foldl max v)

/-- np.nanmedian: drop the NaN entries, sort, take the middle element,
or the mean of the two middle elements when the count is even.  The
none result stands for the all-NaN case, where numpy returns NaN. -/
def nanmedian (xs : List (Option ℚ)) : Option ℚ :=
  let vs := (xs.filterMap id).insertionSort (· ≤ ·)
  if vs.length % 2 = 1 then vs.get? (vs.length / 2)
  else
    match vs.get? (vs.length / 2 - 1), vs.get? (vs.length / 2) with
    | some a, some b => some ((a + b) / 2)
    | _, _ => none

/-- A Python number as produced by the navigation-window computation:
either an int or a float.  The distinction matters because numpy
rejects float slice bounds. -/
inductive PyNum where
  | int (n : ℤ)
  | float (q : ℚ)
deriving DecidableEq

/-- Numeric value of a Python number. -/
def PyNum.toRat : PyNum → ℚ
  | .int n => (n : ℚ)
  | .float q => q

/-- Python 3 true division: the result of the / operator is always a
float, even on two ints. -/
def pyTrueDiv (a b : PyNum) : PyNum :=
  .float (a.toRat / b.toRat)

/-- Python subtraction: int - int stays int, anything involving a
float is a float. -/
def pySub (a b : PyNum) : PyNum :=
  match a, b with
  | .int m, .int n => .int (m - n)
  | _, _ => .float (a.toRat - b.toRat)

/-- CPython min(a, b): keep a unless b compares strictly smaller, so on
numeric ties the first argument (and its type) wins. -/
def pyMin (a b : PyNum) : PyNum :=
  if b.toRat < a.toRat then b else a

/-- CPython max(a, b): keep a unless b compares strictly greater, so on
numeric ties the first argument (and its type) wins. -/
def pyMax (a b : PyNum) : PyNum :=
  if a.toRat < b.toRat then b else a

/-- Lines 112-113 of the script:
value_range = min(10, len(gps[time1]) / 2 - 1); value_range =
max(value_range, 1), with n the number of fixes in the selected
navigation group.  Note the Python 3 true division, which yields a
float whenever the min is decided by the second argument. -/
def value_range (n : ℕ) : PyNum :=
  pyMax (pyMin (.int 10) (pySub (pyTrueDiv (.int n) (.int 2)) (.int 1))) (.int 1)

/-- A leading slice arr[:v] of a numpy array.  A float bound raises, so
it returns none; an int bound takes that many leading elements.  The
script only reaches this with v at least 1. -/
def pySliceHead {α : Type} (l : List α) (v : PyNum) : Option (List α) :=
  match v with
  | .int n => some (l.take n.toNat)
  | .float _ => none

/-- A trailing slice arr[-v:] of a numpy array.  A float bound raises,
so it returns none; an int bound keeps the last v elements (all of
them when v exceeds the length).  The script only reaches this with v
at least 1, so the v = 0 corner of the real slice never arises. -/
def pySliceTail {α : Type} (l : List α) (v : PyNum) : Option (List α) :=
  match v with
  | .int n => some (l.drop (l.length - n.toNat))
  | .float _ => none

/-- Sequence an Option-valued function over a list, failing as soon as
one element fails; the loop bodies of the script are instances. -/
def mapOpt {α β : Type} (g : α → Option β) : List α → Option (List β)
  | [] => some []
  | a :: as => (g a).bind fun b => (mapOpt g as).bind fun bs => some (b :: bs)

theorem mapOpt_length {α β : Type} (g : α → Option β) :
    ∀ (l : List α) (out : List β), mapOpt g l = some out → out.length = l.length := by
  intro l
  induction l with
  | nil =>
    intro out h
    simp only [mapOpt, Option.some.injEq] at h
    simp [← h]
  | cons a as ih =>
    intro out h
    simp only [mapOpt, Option.bind_eq_some, Option.some.injEq] at h
    obtain ⟨b, _, bs, hbs, rfl⟩ := h
    simp [ih bs hbs]

theorem mapOpt_eq_none {α β : Type} (g : α → Option β) :
    ∀ (l : List α) (a : α), a ∈ l → g a = none → mapOpt g l = none := by
  intro l
  induction l with
  | nil => intro a ha; cases ha
  | cons x xs ih =>
    intro a ha hga
    rcases List.mem_cons.mp ha with rfl | hxs
    · simp [mapOpt, hga]
    · cases hx : g x with
      | none => simp [mapOpt, hx]
      | some b => simp [mapOpt, hx, ih a hxs hga]

theorem mapOpt_mem {α β : Type} (g : α → Option β) :
    ∀ (l : List α) (out : List β) (b : β),
      mapOpt g l = some out → b ∈ out → ∃ a ∈ l, g a = some b := by
  intro l
  induction l with
  | nil =>
    intro out b h hb
    simp only [mapOpt, Option.some.injEq] at h
    subst h; cases hb
  | cons x xs ih =>
    intro out b h hb
    simp only [mapOpt, Option.bind_eq_some, Option.some.injEq] at h
    obtain ⟨c, hc, cs, hcs, rfl⟩ := h
    rcases List.mem_cons.mp hb with rfl | hbs
    · exact ⟨x, List.mem_cons_self x xs, hc⟩
    · obtain ⟨a, ha, hga⟩ := ih cs b hcs hbs
      exact ⟨a, List.mem_cons_of_mem x ha, hga⟩

/-- The reference ping index used for every per-ping extraction
(ref_ping = 0 at line 48 of the script). -/
def ref_ping : ℕ := 0

/-- One navigation record of the Platform group: its NMEA sentence
type, its time1 timestamp (abstracted to a rational), and its
latitude/longitude, which may be NaN. -/
structure Fix where
  sentence_type : String
  time1 : ℚ
  latitude : Option ℚ
  longitude : Option ℚ
deriving DecidableEq

/-- One channel of Sonar/Beam_group1.  The per-ping vectors are the
data rows the script indexes at ref_ping; frequency_nominal is indexed
by the channel coordinate, so it sits here rather than in a separate
list.  The two-way beamwidth fields are absent (none) in the schema
variant that makes the primary read at lines 130-131 raise. -/
structure BeamChannel where
  channel : String
  frequency_nominal : ℚ
  transmit_duration_nominal : List ℚ
  sample_interval : List ℚ
  transmit_power : List ℚ
  beamwidth_twoway_alongship : Option (List ℚ)
  beamwidth_twoway_athwartship : Option (List ℚ)
deriving DecidableEq

/-- Per-channel fields of the calibrated backscatter product. -/
structure SvChannel where
  gain_correction : List ℚ
  sa_correction : List ℚ
  beamwidth_alongship : List ℚ
  beamwidth_athwartship : List ℚ
  sound_speed : List ℚ
  sound_absorption : List ℚ
  water_level : List ℚ
deriving DecidableEq

/-- The calibrated backscatter product.  scalarEnv is some
(sound_speed, sound_absorption, water_level[0]) exactly when the
scalar reads of lines 140-142 — float(...) on sound_speed and
sound_absorption plus the leading water_level element — succeed;
echo_range is the flattened echo_range data with NaN as none. -/
structure Sv where
  ping_time : List ℚ
  echo_range : List (Option ℚ)
  scalarEnv : Option (ℚ × ℚ × ℚ)
  channels : List SvChannel
deriving DecidableEq

/-- The structured object returned by a successful open_raw call,
restricted to the fields the script reads.  The outcomes of the two
compute_Sv attempts (encode_mode power, then complex) are recorded as
data, none standing for the exception. -/
structure Raw where
  sonar_software_name : String
  sonar_software_version : String
  beamChannels : List BeamChannel
  fixes : List Fix
  Sv_power : Option Sv
  Sv_complex : Option Sv
deriving DecidableEq

/-- The two hardware dialects the script knows (line 65 and line 69). -/
inductive SonarModel where
  | EK60
  | EK80
deriving DecidableEq

/-- One file on disk, as seen through open_raw: the outcome of parsing
it under each dialect, none standing for the exception. -/
structure RawFile where
  name : String
  ek60 : Option Raw
  ek80 : Option Raw
deriving DecidableEq

/-- Lines 65-70: try open_raw with sonar_model EK60 and fall back to
EK80 when it raises; a failure of the second attempt propagates. -/
def openRaw (f : RawFile) : Option (SonarModel × Raw) :=
  match f.ek60 with
  | some r => some (.EK60, r)
  | none =>
    match f.ek80 with
    | some r => some (.EK80, r)
    | none => none

/-- Lines 77-82: try compute_Sv with encode_mode power and fall back
to encode_mode complex when it raises. -/
def computeSv (r : Raw) : Option Sv :=
  match r.Sv_power with
  | some sv => some sv
  | none => r.Sv_complex

/-- The recognised NMEA sentence types (line 97). -/
def validTypes : List String := ["GGA", "GLL", "RMC"]

/-- The fixes whose sentence type equals st, in input order: the rows
selected by np.where(sentence_types == st) at line 100. -/
def groupOf (fixes : List Fix) (st : String) : List Fix :=
  fixes.filter (fun fx => fx.sentence_type == st)

/-- np.unique of the sentence-type column: the distinct values in
ascending order (line 95). -/
def uniqueSorted (l : List String) : List String :=
  l.dedup.insertionSort (· ≤ ·)

/-- The loop body of lines 95-105: walk the unique sentence types in
order, skip the unrecognised ones, and stop at the first one whose
group is nonempty, returning that type and its group. -/
def selectGroupAux (fixes : List Fix) : List String → Option (String × List Fix)
  | [] => none
  | st :: rest =>
    if st ∈ validTypes then
      if 0 < (groupOf fixes st).length then some (st, groupOf fixes st)
      else selectGroupAux fixes rest
    else selectGroupAux fixes rest

/-- Lines 95-105 as a whole: the navigation group the script keeps for
the file, none when no recognised sentence type occurs (in which case
the later gps[time1] lookup raises KeyError). -/
def selectGroup (fixes : List Fix) : Option (String × List Fix) :=
  selectGroupAux fixes (uniqueSorted (fixes.map Fix.sentence_type))

/-- The navigation-derived outputs shared by every row of a file. -/
structure NavOut where
  dt_start : ℚ
  dt_end : ℚ
  lat_start : Option ℚ
  lat_end : Option ℚ
  lon_start : Option ℚ
  lon_end : Option ℚ
deriving DecidableEq

/-- Lines 108-117: first/last timestamp of the group, then the
windowed medians of latitude and longitude, each rounded to 5 decimal
places.  The none result models the crash paths: an empty group
(IndexError at line 108) or a float value_range (the numpy slices at
lines 114-117 reject float bounds). -/
def navReduce (g : List Fix) : Option NavOut :=
  match g.head?, g.getLast? with
  | some f0, some fl =>
    let vr := value_range g.length
    match pySliceHead (g.map Fix.latitude) vr, pySliceTail (g.map Fix.latitude) vr,
          pySliceHead (g.map Fix.longitude) vr, pySliceTail (g.map Fix.longitude) vr with
    | some latS, some latE, some lonS, some lonE =>
      some { dt_start := f0.time1, dt_end := fl.time1,
             lat_start := (nanmedian latS).map (roundTo 5),
             lat_end := (nanmedian latE).map (roundTo 5),
             lon_start := (nanmedian lonS).map (roundTo 5),
             lon_end := (nanmedian lonE).map (roundTo 5) }
    | _, _, _, _ => none
  | _, _ => none

/-- The navigation outputs of a file: the reduction of the single
selected group. -/
def navOutputs (fixes : List Fix) : Option NavOut :=
  (selectGroup fixes).bind fun p => navReduce p.2

/-- One output record, with one field per metadata column in the order
of lines 149-173. -/
structure Row where
  event : String
  echogram : String
  identification : String
  software : String
  frequency_kHz : ℚ
  npings : ℕ
  beamwidth_alongship_deg : ℚ
  beamwidth_athwartship_deg : ℚ
  gain : ℚ
  Sa : ℚ
  sample_interval_s : ℚ
  pulse_duration_ms : ℚ
  transmit_power : ℚ
  sound_velocity : ℚ
  sound_absorption : ℚ
  depth_min : ℚ
  depth_max : Option ℚ
  depth_median : Option ℚ
  dt_start : ℚ
  dt_end : ℚ
  lat_start : Option ℚ
  lat_end : Option ℚ
  lon_start : Option ℚ
  lon_end : Option ℚ
  calibration : String
deriving DecidableEq

/-- The fallback branch of lines 132-134: per-channel beamwidths from
the backscatter product, unrounded. -/
def beamwidthsFallback (svc : SvChannel) : Option (ℚ × ℚ) :=
  match svc.beamwidth_alongship.get? ref_ping, svc.beamwidth_athwartship.get? ref_ping with
  | some a, some b => some (a, b)
  | _, _ => none

/-- Lines 129-134: try the two-way beamwidth fields of the beam group,
rounded to 5 decimal places; when either read raises, take both values
from the backscatter product instead. -/
def beamwidths (bc : BeamChannel) (svc : SvChannel) : Option (ℚ × ℚ) :=
  match bc.beamwidth_twoway_alongship.bind (List.get? · ref_ping),
        bc.beamwidth_twoway_athwartship.bind (List.get? · ref_ping) with
  | some a, some b => some (roundTo 5 a, roundTo 5 b)
  | _, _ => beamwidthsFallback svc

/-- Lines 139-146: try the scalar form of sound_speed, sound_absorption
and water_level, shared across channels; when that raises, take the
per-channel values at ref_ping.  Both paths round the speed to 5, the
absorption to 8 and the depth to 5 decimal places. -/
def envValues (sv : Sv) (svc : SvChannel) : Option (ℚ × ℚ × ℚ) :=
  match sv.scalarEnv with
  | some (ss, sab, wl) => some (roundTo 5 ss, roundTo 8 sab, roundTo 5 wl)
  | none =>
    match svc.sound_speed.get? ref_ping, svc.sound_absorption.get? ref_ping,
          svc.water_level.get? ref_ping with
    | some ss, some sab, some wl => some (roundTo 5 ss, roundTo 8 sab, roundTo 5 wl)
    | _, _, _ => none

/-- Lines 122-173, the body of the per-channel loop: extract the
per-channel fields at ref_ping and append one row.  mrr is the
max_recording_range of line 87 (none when echo_range is all NaN) and
nav the navigation outputs computed once per file. -/
def processChannel (cruise fname software cal : String) (npings : ℕ)
    (mrr : Option ℚ) (nav : NavOut) (sv : Sv) (bc : BeamChannel) (svc : SvChannel) :
    Option Row :=
  match bc.transmit_duration_nominal.get? ref_ping, bc.sample_interval.get? ref_ping,
        bc.transmit_power.get? ref_ping, beamwidths bc svc,
        svc.gain_correction.get? ref_ping, svc.sa_correction.get? ref_ping,
        envValues sv svc with
  | some pd0, some si0, some tp, some bw, some gain, some sac, some env =>
    let pulse_duration := roundTo 6 pd0
    some { event := cruise
           echogram := fname
           identification := bc.channel
           software := software
           frequency_kHz := bc.frequency_nominal / 1000
           npings := npings
           beamwidth_alongship_deg := bw.1
           beamwidth_athwartship_deg := bw.2
           gain := gain
           Sa := sac
           sample_interval_s := roundTo 7 si0
           pulse_duration_ms := roundTo 3 (pulse_duration * 1000)
           transmit_power := tp
           sound_velocity := env.1
           sound_absorption := env.2.1
           depth_min := env.2.2
           depth_max := mrr.map (fun m => m + env.2.2)
           depth_median := mrr.map (fun m => env.2.2 + m / 2)
           dt_start := nav.dt_start
           dt_end := nav.dt_end
           lat_start := nav.lat_start
           lat_end := nav.lat_end
           lon_start := nav.lon_start
           lon_end := nav.lon_end
           calibration := cal }
  | _, _, _, _, _, _, _ => none

/-- Lines 64-173, the body of the per-file loop: open the file with
the dialect fallback, compute the backscatter product with the
encoding fallback, read the shared metadata, reduce the navigation
log, then emit one row per channel.  The none result models the
uncaught exceptions that abort the run. -/
def processFile (cruise cal : String) (f : RawFile) : Option (List Row) :=
  match openRaw f with
  | none => none
  | some (_, r) =>
    match computeSv r with
    | none => none
    | some sv =>
      match selectGroup r.fixes with
      | none => none
      | some (_, g) =>
        match navReduce g with
        | none => none
        | some nav =>
          mapOpt (fun i =>
              match r.beamChannels.get? i, sv.channels.get? i with
              | some bc, some svc =>
                processChannel cruise f.name
                  (r.sonar_software_name ++ " v" ++ r.sonar_software_version) cal
                  sv.ping_time.length
                  ((nanmax sv.echo_range).map (roundTo 5)) nav sv bc svc
              | _, _ => none)
            (List.range r.beamChannels.length)

/-- The whole run, lines 61-173: process the files in order into one
accumulated row list.  A single failing file makes the whole run fail,
because nothing catches the exception. -/
def processAll (cruise cal : String) (files : List RawFile) : Option (List Row) :=
  (mapOpt (processFile cruise cal) files).map List.flatten

/-- The column names of the output table, in the insertion order of
lines 149-173 (the defaultdict preserves it, and
pd.DataFrame.from_dict and to_csv keep it).  Two keys carry a literal
trailing tab in the source. -/
def columnKeys : List String :=
  ["Event",
   "Echogram, raw format []",
   "Identification []//*channel",
   "Data acquisition software (recording raw data) []",
   "Frequency [kHz]",
   "Number of pings []",
   "Beamwidth, alongship [deg]",
   "Beamwidth, athwartship [deg]",
   "Gain, transducer [dB re 1]",
   "Simrad correction factor [dB re 1/m]",
   "Sample interval [s]",
   "Pulse duration, transmitted [ms]",
   "Power, transmitted [W]",
   "Sound velocity in water [m/s]",
   "Sound absorption [dB/m]",
   "Depth, water, top/minimum [m]",
   "Depth, water, bottom/maximum [m]",
   "DEPTH, water [m]",
   "Date/time start []",
   "Date/time end []\t",
   "Latitude []",
   "Latitude 2 []",
   "Longitude []\t",
   "Longitude 2 []",
   "Calibration []"]

/-- Lines 176-181: the serialized output exists only when the whole
run succeeded; it pairs the column header with the accumulated rows. -/
def outputCsv (cruise cal : String) (files : List RawFile) :
    Option (List String × List Row) :=
  (processAll cruise cal files).map fun rows => (columnKeys, rows)

/-! Concrete example data used by the evaluation theorems. -/

/-- A three-fix GGA navigation log; its window size is the int 1, the
largest group size below the float-window regime. -/
def exFixes : List Fix :=
  [⟨"GGA", 0, some 10, some 20⟩, ⟨"GGA", 1, some 10, some 20⟩,
   ⟨"GGA", 2, some 10, some 20⟩]

/-- A four-fix GGA navigation log, the smallest group on which the
float window size makes the position slices raise. -/
def fourGGA : List Fix :=
  [⟨"GGA", 0, some 10, some 20⟩, ⟨"GGA", 1, some 10, some 20⟩,
   ⟨"GGA", 2, some 10, some 20⟩, ⟨"GGA", 3, some 10, some 20⟩]

/-- A navigation log mixing the three recognised sentence types. -/
def mixFixes : List Fix :=
  [⟨"RMC", 0, some 1, some 2⟩, ⟨"GGA", 1, some 3, some 4⟩,
   ⟨"GLL", 2, some 5, some 6⟩, ⟨"GGA", 3, some 7, some 8⟩]

/-- The GGA group of mixFixes. -/
def mixGroup : List Fix :=
  [⟨"GGA", 1, some 3, some 4⟩, ⟨"GGA", 3, some 7, some 8⟩]

/-- An example beam-group channel. -/
def exBC : BeamChannel :=
  { channel := "GPT 18 kHz 009072056150 1-1 ES18-11"
    frequency_nominal := 18000
    transmit_duration_nominal := [1 / 1000]
    sample_interval := [1 / 10000]
    transmit_power := [2000]
    beamwidth_twoway_alongship := some [7]
    beamwidth_twoway_athwartship := some [7] }

/-- An example backscatter-product channel. -/
def exSvc : SvChannel :=
  { gain_correction := [25]
    sa_correction := [0]
    beamwidth_alongship := [7]
    beamwidth_athwartship := [7]
    sound_speed := [1500]
    sound_absorption := [3 / 1000]
    water_level := [5] }

/-- An example backscatter product with a scalar environment and one
NaN echo_range sample. -/
def exSv : Sv :=
  { ping_time := [0, 1]
    echo_range := [some 500, none, some 1000]
    scalarEnv := some (1500, 3 / 1000, 5)
    channels := [exSvc, exSvc] }

/-- The same backscatter product without the scalar environment, so
the per-channel fallback path fires. -/
def exSvNS : Sv :=
  { ping_time := [0, 1]
    echo_range := [some 500, none, some 1000]
    scalarEnv := none
    channels := [exSvc, exSvc] }

/-- An example opened raw file with two channels. -/
def exRaw : Raw :=
  { sonar_software_name := "ER60"
    sonar_software_version := "1.0"
    beamChannels := [exBC, exBC]
    fixes := exFixes
    Sv_power := some exSv
    Sv_complex := none }

/-- An example file that opens as EK60. -/
def exFile : RawFile := { name := "f.raw", ek60 := some exRaw, ek80 := none }

/-- The same raw contents but with the four-fix navigation log. -/
def crashRaw : Raw :=
  { sonar_software_name := "ER60"
    sonar_software_version := "1.0"
    beamChannels := [exBC, exBC]
    fixes := fourGGA
    Sv_power := some exSv
    Sv_complex := none }

/-- A file identical to exFile except for one extra navigation fix. -/
def crashFile : RawFile := { name := "g.raw", ek60 := some crashRaw, ek80 := none }

/-- A file neither dialect can open. -/
def badFile : RawFile := { name := "h.raw", ek60 := none, ek80 := none }

/-- The navigation outputs of exFixes. -/
def exNav : NavOut :=
  { dt_start := 0, dt_end := 2, lat_start := some 10, lat_end := some 10,
    lon_start := some 20, lon_end := some 20 }

/-- The row emitted for each channel of exFile. -/
def exRow : Row :=
  { event := "CR"
    echogram := "f.raw"
    identification := "GPT 18 kHz 009072056150 1-1 ES18-11"
    software := "ER60 v1.0"
    frequency_kHz := 18
    npings := 2
    beamwidth_alongship_deg := 7
    beamwidth_athwartship_deg := 7
    gain := 25
    Sa := 0
    sample_interval_s := 1 / 10000
    pulse_duration_ms := 1
    transmit_power := 2000
    sound_velocity := 1500
    sound_absorption := 3 / 1000
    depth_min := 5
    depth_max := some 1005
    depth_median := some 505
    dt_start := 0
    dt_end := 2
    lat_start := some 10
    lat_end := some 10
    lon_start := some 20
    lon_end := some 20
    calibration := "Unknown" }

/-! Helper lemmas about the group-selection loop. -/

theorem selectGroupAux_props (fixes : List Fix) :
    ∀ (l : List String) (st : String) (g : List Fix),
      selectGroupAux fixes l = some (st, g) →
      st ∈ validTypes ∧ g = groupOf fixes st ∧ g ≠ [] := by
  intro l
  induction l with
  | nil => intro st g h; simp [selectGroupAux] at h
  | cons t rest ih =>
    intro st g h
    by_cases hv : t ∈ validTypes
    · rw [selectGroupAux, if_pos hv] at h
      by_cases hl : 0 < (groupOf fixes t).length
      · rw [if_pos hl] at h
        simp only [Option.some.injEq, Prod.mk.injEq] at h
        obtain ⟨rfl, rfl⟩ := h
        exact ⟨hv, rfl, List.length_pos.mp hl⟩
      · rw [if_neg hl] at h
        exact ih st g h
    · rw [selectGroupAux, if_neg hv] at h
      exact ih st g h

theorem selectGroupAux_min (fixes : List Fix) :
    ∀ (l : List String), l.Sorted (· ≤ ·) →
      ∀ (st : String) (g : List Fix), selectGroupAux fixes l = some (st, g) →
      ∀ t ∈ l, t ∈ validTypes → groupOf fixes t ≠ [] → st ≤ t := by
  intro l
  induction l with
  | nil => intro _ st g h; simp [selectGroupAux] at h
  | cons u rest ih =>
    intro hs st g h t ht hv hg
    have hs2 : rest.Sorted (· ≤ ·) := (List.sorted_cons.mp hs).2
    by_cases hu : u ∈ validTypes
    · rw [selectGroupAux, if_pos hu] at h
      by_cases hl : 0 < (groupOf fixes u).length
      · rw [if_pos hl] at h
        simp only [Option.some.injEq, Prod.mk.injEq] at h
        obtain ⟨rfl, rfl⟩ := h
        rcases List.mem_cons.mp ht with rfl | htr
        · exact le_refl t
        · exact (List.sorted_cons.mp hs).1 t htr
      · rw [if_neg hl] at h
        rcases List.mem_cons.mp ht with rfl | htr
        · exact absurd (List.length_pos.mpr hg) hl
        · exact ih hs2 st g h t htr hv hg
    · rw [selectGroupAux, if_neg hu] at h
      rcases List.mem_cons.mp ht with rfl | htr
      · exact absurd hv hu
      · exact ih hs2 st g h t htr hv hg

theorem mem_uniqueSorted (l : List String) (t : String) :
    t ∈ uniqueSorted l ↔ t ∈ l := by
  unfold uniqueSorted
  rw [(List.perm_insertionSort _ _).mem_iff, List.mem_dedup]

theorem sorted_uniqueSorted (l : List String) :
    (uniqueSorted l).Sorted (· ≤ ·) :=
  List.sorted_insertionSort _ _

theorem processChannel_inv (cruise fname software cal : String) (npings : ℕ)
    (mrr : Option ℚ) (nav : NavOut) (sv : Sv) (bc : BeamChannel) (svc : SvChannel)
    (row : Row)
    (h : processChannel cruise fname software cal npings mrr nav sv bc svc = some row) :
    ∃ pd0 si0 tp bwa bwb gain sac ss sab wl,
      bc.transmit_duration_nominal.get? ref_ping = some pd0 ∧
      bc.sample_interval.get? ref_ping = some si0 ∧
      bc.transmit_power.get? ref_ping = some tp ∧
      beamwidths bc svc = some (bwa, bwb) ∧
      svc.gain_correction.get? ref_ping = some gain ∧
      svc.sa_correction.get? ref_ping = some sac ∧
      envValues sv svc = some (ss, sab, wl) ∧
      row = { event := cruise, echogram := fname, identification := bc.channel,
              software := software, frequency_kHz := bc.frequency_nominal / 1000,
              npings := npings, beamwidth_alongship_deg := bwa,
              beamwidth_athwartship_deg := bwb, gain := gain, Sa := sac,
              sample_interval_s := roundTo 7 si0,
              pulse_duration_ms := roundTo 3 (roundTo 6 pd0 * 1000),
              transmit_power := tp, sound_velocity := ss, sound_absorption := sab,
              depth_min := wl, depth_max := mrr.map (fun m => m + wl),
              depth_median := mrr.map (fun m => wl + m / 2),
              dt_start := nav.dt_start, dt_end := nav.dt_end,
              lat_start := nav.lat_start, lat_end := nav.lat_end,
              lon_start := nav.lon_start, lon_end := nav.lon_end,
              calibration := cal } := by
  unfold processChannel at h
  split at h
  next pd0 si0 tp bw gain sac env h1 h2 h3 h4 h5 h6 h7 =>
    obtain ⟨bwa, bwb⟩ := bw
    obtain ⟨ss, sab, wl⟩ := env
    simp only [Option.some.injEq] at h
    exact ⟨pd0, si0, tp, bwa, bwb, gain, sac, ss, sab, wl,
           h1, h2, h3, h4, h5, h6, h7, h.symm⟩
  next => exact absurd h (by simp)

/-! Evaluation lemmas on the concrete examples.  Rational arithmetic
is not kernel-reducible (the Batteries operations are irreducible), so
these go through norm_num rather than decide. -/

theorem value_range_4 : value_range 4 = PyNum.float 1 := by
  norm_num [value_range, pyMax, pyMin, pySub, pyTrueDiv, PyNum.toRat]

theorem value_range_3 : value_range 3 = PyNum.int 1 := by
  norm_num [value_range, pyMax, pyMin, pySub, pyTrueDiv, PyNum.toRat]

theorem value_range_30 : value_range 30 = PyNum.int 10 := by
  norm_num [value_range, pyMax, pyMin, pySub, pyTrueDiv, PyNum.toRat]

theorem navReduce_fourGGA : navReduce fourGGA = none := by
  have h4 : fourGGA.length = 4 := rfl
  simp only [navReduce, h4, value_range_4, pySliceHead]
  split <;> rfl

theorem selectGroup_fourGGA : selectGroup fourGGA = some ("GGA", fourGGA) := by
  decide

theorem uniqueSorted_mix :
    uniqueSorted (mixFixes.map Fix.sentence_type) = ["GGA", "GLL", "RMC"] := by
  have hd : (mixFixes.map Fix.sentence_type).dedup = ["RMC", "GLL", "GGA"] := by decide
  unfold uniqueSorted
  rw [hd]
  norm_num [List.insertionSort, List.orderedInsert]
  decide

theorem selectGroup_mix : selectGroup mixFixes = some ("GGA", mixGroup) := by
  unfold selectGroup
  rw [uniqueSorted_mix]
  decide

theorem processFile_crashFile : processFile "CR" "Unknown" crashFile = none := by
  have ho : openRaw crashFile = some (SonarModel.EK60, crashRaw) := rfl
  have hsv : computeSv crashRaw = some exSv := rfl
  have hfx : crashRaw.fixes = fourGGA := rfl
  unfold processFile
  simp only [ho, hsv, hfx, selectGroup_fourGGA, navReduce_fourGGA]

theorem selectGroup_exFixes : selectGroup exFixes = some ("GGA", exFixes) := by
  decide

theorem nanmedian_ten : nanmedian [some (10 : ℚ)] = some 10 := by
  norm_num [nanmedian, List.insertionSort, List.orderedInsert, List.filterMap]

theorem nanmedian_twenty : nanmedian [some (20 : ℚ)] = some 20 := by
  norm_num [nanmedian, List.insertionSort, List.orderedInsert, List.filterMap]

theorem roundTo5_ten : roundTo 5 (10 : ℚ) = 10 := by
  norm_num [roundTo, roundHalfEven]

theorem roundTo5_twenty : roundTo 5 (20 : ℚ) = 20 := by
  norm_num [roundTo, roundHalfEven]

theorem navReduce_exFixes : navReduce exFixes = some exNav := by
  have h3 : exFixes.length = 3 := rfl
  have hh : exFixes.head? = some ⟨"GGA", 0, some 10, some 20⟩ := rfl
  have hl : exFixes.getLast? = some ⟨"GGA", 2, some 10, some 20⟩ := rfl
  have hlat : exFixes.map Fix.latitude = [some 10, some 10, some 10] := rfl
  have hlon : exFixes.map Fix.longitude = [some 20, some 20, some 20] := rfl
  norm_num [navReduce, h3, hh, hl, hlat, hlon, value_range_3, pySliceHead, pySliceTail,
            nanmedian_ten, nanmedian_twenty, roundTo5_ten, roundTo5_twenty, exNav]

theorem envValues_exSv : envValues exSv exSvc = some (1500, 3 / 1000, 5) := by
  norm_num [envValues, exSv, exSvc, roundTo, roundHalfEven]

theorem envValues_exSvNS : envValues exSvNS exSvc = some (1500, 3 / 1000, 5) := by
  norm_num [envValues, exSvNS, exSvc, ref_ping, List.get?, roundTo, roundHalfEven]

theorem beamwidths_ex : beamwidths exBC exSvc = some (7, 7) := by
  norm_num [beamwidths, exBC, exSvc, ref_ping, List.get?, roundTo, roundHalfEven]

theorem nanmax_ex : nanmax exSv.echo_range = some 1000 := by
  norm_num [nanmax, exSv, List.filterMap, max_def]

theorem processChannel_ex :
    processChannel "CR" "f.raw" "ER60 v1.0" "Unknown" 2 (some 1000) exNav exSv exBC exSvc
      = some exRow := by
  have h1 : exBC.transmit_duration_nominal.get? ref_ping = some (1 / 1000) := rfl
  have h2 : exBC.sample_interval.get? ref_ping = some (1 / 10000) := rfl
  have h3 : exBC.transmit_power.get? ref_ping = some 2000 := rfl
  have h4 : exSvc.gain_correction.get? ref_ping = some 25 := rfl
  have h5 : exSvc.sa_correction.get? ref_ping = some 0 := rfl
  have hc : exBC.channel = "GPT 18 kHz 009072056150 1-1 ES18-11" := rfl
  have hf : exBC.frequency_nominal = 18000 := rfl
  unfold processChannel
  rw [h1, h2, h3, beamwidths_ex, h4, h5, envValues_exSv]
  norm_num [roundTo, roundHalfEven, exRow, exNav, hc, hf]

theorem processChannel_exNS :
    processChannel "CR" "f.raw" "ER60 v1.0" "Unknown" 2 (some 1000) exNav exSvNS exBC exSvc
      = some exRow := by
  have h1 : exBC.transmit_duration_nominal.get? ref_ping = some (1 / 1000) := rfl
  have h2 : exBC.sample_interval.get? ref_ping = some (1 / 10000) := rfl
  have h3 : exBC.transmit_power.get? ref_ping = some 2000 := rfl
  have h4 : exSvc.gain_correction.get? ref_ping = some 25 := rfl
  have h5 : exSvc.sa_correction.get? ref_ping = some 0 := rfl
  have hc : exBC.channel = "GPT 18 kHz 009072056150 1-1 ES18-11" := rfl
  have hf : exBC.frequency_nominal = 18000 := rfl
  unfold processChannel
  rw [h1, h2, h3, beamwidths_ex, h4, h5, envValues_exSvNS]
  norm_num [roundTo, roundHalfEven, exRow, exNav, hc, hf]

theorem processFile_ex : processFile "CR" "Unknown" exFile = some [exRow, exRow] := by
  have ho : openRaw exFile = some (SonarModel.EK60, exRaw) := rfl
  have hsv : computeSv exRaw = some exSv := rfl
  have hfx : exRaw.fixes = exFixes := rfl
  have hname : exFile.name = "f.raw" := rfl
  have hsw : exRaw.sonar_software_name ++ " v" ++ exRaw.sonar_software_version
      = "ER60 v1.0" := rfl
  have hnp : exSv.ping_time.length = 2 := rfl
  have hmrr : (nanmax exSv.echo_range).map (roundTo 5) = some 1000 := by
    rw [nanmax_ex]
    norm_num [roundTo, roundHalfEven]
  have hn : exRaw.beamChannels.length = 2 := rfl
  have hr : List.range 2 = [0, 1] := rfl
  have hbc0 : exRaw.beamChannels.get? 0 = some exBC := rfl
  have hbc1 : exRaw.beamChannels.get? 1 = some exBC := rfl
  have hch0 : exSv.channels.get? 0 = some exSvc := rfl
  have hch1 : exSv.channels.get? 1 = some exSvc := rfl
  unfold processFile
  simp only [ho, hsv, hfx, selectGroup_exFixes, navReduce_exFixes, hname, hsw, hnp,
             hmrr, hn, hr, hbc0, hbc1, hch0, hch1, mapOpt, processChannel_ex,
             Option.bind_some, Option.some_bind]

/-- C1: the claimed window size max(1, min(10, floor(fix_count/2) - 1))
does not match the code.  Line 112 uses Python 3 true division, so for
a group of 4 fixes value_range is the float 1.0, not the int 1, and
the numpy slices at lines 114-117 reject a float bound: navReduce
fails on a 4-fix group, and a whole file differing from a working one
only by that navigation log produces no rows.  The claimed formula is
realised only outside the float regime: 3 fixes give the int 1 and 30
fixes give the int 10. -/
theorem C1_window_float_crash :
    value_range 4 = PyNum.float 1 ∧
    pySliceHead (fourGGA.map Fix.latitude) (value_range 4) = none ∧
    navReduce fourGGA = none ∧
    processFile "CR" "Unknown" crashFile = none ∧
    value_range 3 = PyNum.int 1 ∧
    value_range 30 = PyNum.int 10 :=
  ⟨value_range_4, by simp only [value_range_4, pySliceHead], navReduce_fourGGA,
   processFile_crashFile, value_range_3, value_range_30⟩

/-- C2: whenever the script keeps a navigation group, that group is
exactly the fixes of one recognised sentence type — the least type
present in the np.unique ordering — it is nonempty and homogeneous,
and every navigation-derived output of the file is computed from that
single group. -/
theorem C2_single_group (fixes : List Fix) (st : String) (g : List Fix)
    (h : selectGroup fixes = some (st, g)) :
    st ∈ validTypes ∧
    g = groupOf fixes st ∧
    g ≠ [] ∧
    (∀ fx ∈ g, fx.sentence_type = st) ∧
    (∀ t ∈ validTypes, (∃ fx ∈ fixes, fx.sentence_type = t) → st ≤ t) ∧
    navOutputs fixes = navReduce g := by
  obtain ⟨hv, hg, hne⟩ := selectGroupAux_props fixes _ st g h
  refine ⟨hv, hg, hne, ?_, ?_, ?_⟩
  · intro fx hfx
    rw [hg] at hfx
    have hm := List.mem_filter.mp hfx
    exact beq_iff_eq.mp hm.2
  · rintro t htv ⟨fx, hfx, hfxt⟩
    have hmem : t ∈ uniqueSorted (fixes.map Fix.sentence_type) :=
      (mem_uniqueSorted _ _).mpr (List.mem_map.mpr ⟨fx, hfx, hfxt⟩)
    have hgne : groupOf fixes t ≠ [] :=
      List.ne_nil_of_mem (List.mem_filter.mpr ⟨hfx, by simp [hfxt]⟩)
    exact selectGroupAux_min fixes _ (sorted_uniqueSorted _) st g h t hmem htv hgne
  · simp [navOutputs, h]

/-- Witness for C2 on a log mixing RMC, GGA and GLL fixes: the kept
group is the GGA one. -/
theorem C2_single_group_witness :
    selectGroup mixFixes = some ("GGA", mixGroup) ∧
    mixGroup = groupOf mixFixes "GGA" ∧
    mixGroup ≠ [] ∧
    navOutputs mixFixes = navReduce mixGroup := by
  have hc := C2_single_group mixFixes "GGA" mixGroup selectGroup_mix
  exact ⟨selectGroup_mix, hc.2.1, hc.2.2.1, hc.2.2.2.2.2⟩

/-- C3: opening tries the EK60 dialect first and retries as EK80; when
both fail the failure propagates: that file yields no row, the whole
run yields nothing, and no output is serialized, losing the rows of
the files already processed. -/
theorem C3_dialect_fallback_and_halt (cruise cal : String)
    (pre post : List RawFile) (f g1 g2 : RawFile) (r1 r2 : Raw)
    (h60 : f.ek60 = none) (h80 : f.ek80 = none)
    (hg1 : g1.ek60 = some r1) (hg2a : g2.ek60 = none) (hg2b : g2.ek80 = some r2) :
    openRaw g1 = some (SonarModel.EK60, r1) ∧
    openRaw g2 = some (SonarModel.EK80, r2) ∧
    openRaw f = none ∧
    processFile cruise cal f = none ∧
    processAll cruise cal (pre ++ f :: post) = none ∧
    outputCsv cruise cal (pre ++ f :: post) = none := by
  have h3 : openRaw f = none := by simp [openRaw, h60, h80]
  have h4 : processFile cruise cal f = none := by
    unfold processFile
    rw [h3]
  have h5 : processAll cruise cal (pre ++ f :: post) = none := by
    unfold processAll
    rw [mapOpt_eq_none (processFile cruise cal) _ f (by simp) h4]
    rfl
  refine ⟨by simp [openRaw, hg1], by simp [openRaw, hg2a, hg2b], h3, h4, h5, ?_⟩
  unfold outputCsv
  rw [h5]
  rfl

/-- Witness for C3: a run over one good file followed by one file that
neither dialect opens produces no serialized output at all. -/
theorem C3_dialect_fallback_and_halt_witness :
    openRaw exFile = some (SonarModel.EK60, exRaw) ∧
    openRaw { name := "e.raw", ek60 := none, ek80 := some exRaw } =
      some (SonarModel.EK80, exRaw) ∧
    openRaw badFile = none ∧
    processFile "CR" "Unknown" badFile = none ∧
    processAll "CR" "Unknown" ([exFile] ++ badFile :: []) = none ∧
    outputCsv "CR" "Unknown" ([exFile] ++ badFile :: []) = none :=
  C3_dialect_fallback_and_halt "CR" "Unknown" [exFile] [] badFile exFile
    { name := "e.raw", ek60 := none, ek80 := some exRaw } exRaw exRaw
    rfl rfl rfl rfl rfl

/-- C4: in every emitted row, the median water depth equals the
minimum depth plus half the difference between maximum and minimum
depth, exactly. -/
theorem C4_median_depth (cruise fname software cal : String) (npings : ℕ)
    (mrr : Option ℚ) (nav : NavOut) (sv : Sv) (bc : BeamChannel) (svc : SvChannel)
    (row : Row) (M : ℚ)
    (h : processChannel cruise fname software cal npings mrr nav sv bc svc = some row)
    (hM : row.depth_max = some M) :
    row.depth_median = some (row.depth_min + (M - row.depth_min) / 2) := by
  obtain ⟨pd0, si0, tp, bwa, bwb, gain, sac, ss, sab, wl, h1, h2, h3, h4, h5, h6, h7, rfl⟩ :=
    processChannel_inv _ _ _ _ _ _ _ _ _ _ _ h
  cases mrr with
  | none => simp at hM
  | some m =>
    simp only [Option.map_some', Option.some.injEq] at hM
    subst hM
    simp only [Option.map_some', Option.some.injEq]
    ring

/-- Witness for C4 at the concrete example channel. -/
theorem C4_median_depth_witness :
    processChannel "CR" "f.raw" "ER60 v1.0" "Unknown" 2 (some 1000) exNav exSv exBC exSvc
      = some exRow ∧
    exRow.depth_max = some 1005 ∧
    exRow.depth_median = some (exRow.depth_min + (1005 - exRow.depth_min) / 2) :=
  ⟨processChannel_ex, rfl,
   C4_median_depth "CR" "f.raw" "ER60 v1.0" "Unknown" 2 (some 1000) exNav exSv exBC exSvc
     exRow 1005 processChannel_ex rfl⟩

/-- C5: in every emitted row, maximum depth minus minimum depth equals
the rounded maximum echo range of the file, exactly in the rational
model. -/
theorem C5_depth_span (cruise cal : String) (f : RawFile) (rows : List Row)
    (m : SonarModel) (r : Raw) (sv : Sv) (row : Row) (e M : ℚ)
    (h : processFile cruise cal f = some rows)
    (ho : openRaw f = some (m, r)) (hsv : computeSv r = some sv)
    (he : nanmax sv.echo_range = some e)
    (hrow : row ∈ rows) (hM : row.depth_max = some M) :
    M - row.depth_min = roundTo 5 e := by
  unfold processFile at h
  simp only [ho, hsv, he, Option.map_some'] at h
  rcases hsel : selectGroup r.fixes with _ | ⟨st, g⟩
  · simp only [hsel] at h
    exact Option.noConfusion h
  · simp only [hsel] at h
    rcases hnav : navReduce g with _ | nav
    · simp only [hnav] at h
      exact Option.noConfusion h
    · simp only [hnav] at h
      obtain ⟨i, hi, hF⟩ := mapOpt_mem _ _ _ _ h hrow
      rcases hbc : r.beamChannels.get? i with _ | bc
      · simp only [hbc] at hF
        exact Option.noConfusion hF
      · simp only [hbc] at hF
        rcases hch : sv.channels.get? i with _ | svc
        · simp only [hch] at hF
          exact Option.noConfusion hF
        · simp only [hch] at hF
          obtain ⟨pd0, si0, tp, bwa, bwb, gain, sac, ss, sab, wl,
                  g1, g2, g3, g4, g5, g6, g7, rfl⟩ :=
            processChannel_inv _ _ _ _ _ _ _ _ _ _ _ hF
          simp only [Option.map_some', Option.some.injEq] at hM
          subst hM
          ring

/-- Witness for C5 at the concrete example file. -/
theorem C5_depth_span_witness :
    processFile "CR" "Unknown" exFile = some [exRow, exRow] ∧
    nanmax exSv.echo_range = some 1000 ∧
    1005 - exRow.depth_min = roundTo 5 1000 :=
  ⟨processFile_ex, nanmax_ex,
   C5_depth_span "CR" "Unknown" exFile [exRow, exRow] SonarModel.EK60 exRaw exSv exRow
     1000 1005 processFile_ex rfl rfl nanmax_ex (by simp) rfl⟩

/-- C6: the number of rows emitted for a successfully processed file
equals the channel count of its beam group. -/
theorem C6_rows_per_file (cruise cal : String) (f : RawFile) (rows : List Row)
    (m : SonarModel) (r : Raw)
    (h : processFile cruise cal f = some rows) (ho : openRaw f = some (m, r)) :
    rows.length = r.beamChannels.length := by
  unfold processFile at h
  simp only [ho] at h
  rcases hsv : computeSv r with _ | sv
  · simp only [hsv] at h
    exact Option.noConfusion h
  · simp only [hsv] at h
    rcases hsel : selectGroup r.fixes with _ | ⟨st, g⟩
    · simp only [hsel] at h
      exact Option.noConfusion h
    · simp only [hsel] at h
      rcases hnav : navReduce g with _ | nav
      · simp only [hnav] at h
        exact Option.noConfusion h
      · simp only [hnav] at h
        have hlen := mapOpt_length _ _ _ h
        simpa using hlen

/-- Witness for C6: the example file has two channels and yields two
rows. -/
theorem C6_rows_per_file_witness :
    ([exRow, exRow] : List Row).length = exRaw.beamChannels.length :=
  C6_rows_per_file "CR" "Unknown" exFile [exRow, exRow] SonarModel.EK60 exRaw
    processFile_ex rfl

/-- C7: the emitted frequency in kilohertz is the nominal frequency of
the channel divided by 1000. -/
theorem C7_frequency (cruise fname software cal : String) (npings : ℕ)
    (mrr : Option ℚ) (nav : NavOut) (sv : Sv) (bc : BeamChannel) (svc : SvChannel)
    (row : Row)
    (h : processChannel cruise fname software cal npings mrr nav sv bc svc = some row) :
    row.frequency_kHz = bc.frequency_nominal / 1000 := by
  obtain ⟨pd0, si0, tp, bwa, bwb, gain, sac, ss, sab, wl, h1, h2, h3, h4, h5, h6, h7, rfl⟩ :=
    processChannel_inv _ _ _ _ _ _ _ _ _ _ _ h
  rfl

/-- Witness for C7 at the concrete example channel. -/
theorem C7_frequency_witness :
    exRow.frequency_kHz = exBC.frequency_nominal / 1000 :=
  C7_frequency "CR" "f.raw" "ER60 v1.0" "Unknown" 2 (some 1000) exNav exSv exBC exSvc
    exRow processChannel_ex

/-- C8: the emitted pulse duration is the raw transmit duration at the
reference ping rounded to 6 decimal places, converted to milliseconds
and rounded to 3. -/
theorem C8_pulse_duration (cruise fname software cal : String) (npings : ℕ)
    (mrr : Option ℚ) (nav : NavOut) (sv : Sv) (bc : BeamChannel) (svc : SvChannel)
    (row : Row) (d : ℚ)
    (h : processChannel cruise fname software cal npings mrr nav sv bc svc = some row)
    (hd : bc.transmit_duration_nominal.get? ref_ping = some d) :
    row.pulse_duration_ms = roundTo 3 (roundTo 6 d * 1000) := by
  obtain ⟨pd0, si0, tp, bwa, bwb, gain, sac, ss, sab, wl, h1, h2, h3, h4, h5, h6, h7, rfl⟩ :=
    processChannel_inv _ _ _ _ _ _ _ _ _ _ _ h
  rw [h1] at hd
  injection hd with hd
  subst hd
  rfl

/-- Witness for C8 at the concrete example channel. -/
theorem C8_pulse_duration_witness :
    exBC.transmit_duration_nominal.get? ref_ping = some (1 / 1000) ∧
    exRow.pulse_duration_ms = roundTo 3 (roundTo 6 (1 / 1000) * 1000) :=
  ⟨rfl,
   C8_pulse_duration "CR" "f.raw" "ER60 v1.0" "Unknown" 2 (some 1000) exNav exSv exBC
     exSvc exRow (1 / 1000) processChannel_ex rfl⟩

/-- C9: the environmental fields are read scalar-first with a
per-channel fallback at the reference ping; in both paths the emitted
sound speed is rounded to 5 decimal places, the absorption to 8 and
the transducer depth to 5. -/
theorem C9_env_fallback (cruise fname software cal : String) (npings : ℕ)
    (mrr : Option ℚ) (nav : NavOut) (sv : Sv) (bc : BeamChannel) (svc : SvChannel)
    (row : Row)
    (h : processChannel cruise fname software cal npings mrr nav sv bc svc = some row) :
    (∀ ss sab wl, sv.scalarEnv = some (ss, sab, wl) →
      row.sound_velocity = roundTo 5 ss ∧ row.sound_absorption = roundTo 8 sab ∧
      row.depth_min = roundTo 5 wl) ∧
    (∀ ss sab wl, sv.scalarEnv = none →
      svc.sound_speed.get? ref_ping = some ss →
      svc.sound_absorption.get? ref_ping = some sab →
      svc.water_level.get? ref_ping = some wl →
      row.sound_velocity = roundTo 5 ss ∧ row.sound_absorption = roundTo 8 sab ∧
      row.depth_min = roundTo 5 wl) := by
  obtain ⟨pd0, si0, tp, bwa, bwb, gain, sac, ss0, sab0, wl0, h1, h2, h3, h4, h5, h6, h7, rfl⟩ :=
    processChannel_inv _ _ _ _ _ _ _ _ _ _ _ h
  constructor
  · intro ss sab wl hsc
    have he : envValues sv svc = some (roundTo 5 ss, roundTo 8 sab, roundTo 5 wl) := by
      unfold envValues
      rw [hsc]
    rw [h7] at he
    simp only [Option.some.injEq, Prod.mk.injEq] at he
    exact ⟨he.1, he.2.1, he.2.2⟩
  · intro ss sab wl hsc hss hsab hwl
    have he : envValues sv svc = some (roundTo 5 ss, roundTo 8 sab, roundTo 5 wl) := by
      unfold envValues
      rw [hsc, hss, hsab, hwl]
    rw [h7] at he
    simp only [Option.some.injEq, Prod.mk.injEq] at he
    exact ⟨he.1, he.2.1, he.2.2⟩

/-- Witness for C9: the scalar path on exSv and the per-channel
fallback path on exSvNS both produce the same rounded values. -/
theorem C9_env_fallback_witness :
    exSv.scalarEnv = some (1500, 3 / 1000, 5) ∧
    (exRow.sound_velocity = roundTo 5 1500 ∧
     exRow.sound_absorption = roundTo 8 (3 / 1000) ∧
     exRow.depth_min = roundTo 5 5) ∧
    exSvNS.scalarEnv = none ∧
    (exRow.sound_velocity = roundTo 5 1500 ∧
     exRow.sound_absorption = roundTo 8 (3 / 1000) ∧
     exRow.depth_min = roundTo 5 5) :=
  ⟨rfl,
   (C9_env_fallback "CR" "f.raw" "ER60 v1.0" "Unknown" 2 (some 1000) exNav exSv exBC
       exSvc exRow processChannel_ex).1 1500 (3 / 1000) 5 rfl,
   rfl,
   (C9_env_fallback "CR" "f.raw" "ER60 v1.0" "Unknown" 2 (some 1000) exNav exSvNS exBC
       exSvc exRow processChannel_exNS).2 1500 (3 / 1000) 5 rfl rfl rfl rfl⟩

/-- C10: in the serialized column header, the end-timestamp column and
the start-longitude column each carry a trailing tab character,
unlike the documented names and unlike the other columns. -/
theorem C10_tab_columns :
    "Date/time end []\t" ∈ columnKeys ∧
    "Longitude []\t" ∈ columnKeys ∧
    "Date/time end []" ∉ columnKeys ∧
    "Longitude []" ∉ columnKeys ∧
    "Date/time start []" ∈ columnKeys ∧
    "Longitude 2 []" ∈ columnKeys ∧
    "Date/time end []\t" ≠ "Date/time end []" ∧
    "Longitude []\t" ≠ "Longitude []" ∧
    ("Date/time end []\t").data.getLast? = some '\t' ∧
    ("Longitude []\t").data.getLast? = some '\t' := by
  decide

end EchoUtilities
